import Mathlib

/-!
Verification of the dual-mode authentication and authorization core of the
FASTAPI Employee Task Manager repository.

Shallow embedding of:
  - models.py        (User record, role values)
  - config.py        (Settings relevant to auth)
  - auth.py          (get_api_key)
  - jwt_auth.py      (create_access_token, get_current_user, authenticate_user,
                      create_user, get_user_by_username, get_user_by_email)
  - auth_dependencies.py (get_current_user_dual, require_authentication, require_admin)
  - routers/auth_router.py (register, login)

Conventions of the embedding:
  - The persisted account store is a Db value: a list of User rows plus the next
    autoincrement id. SQLAlchemy query(...).first() becomes List.find?.
  - A JWT is modelled as its decoded claims together with the key and algorithm
    it was signed with; jwt.encode records them, jwt_decode compares them.
    jwt_decode follows the python-jose defaults used by the source call
    jwt.decode(token, SECRET_KEY, algorithms=[ALGORITHM]): the signature and
    algorithm are verified; the exp claim is validated only when present
    (require_exp defaults to false), and a present exp fails exactly when
    exp < now (leeway 0, ExpiredSignatureError, a subclass of JWTError).
  - bcrypt hashing and checking are external; verify_password and hash_password
    are taken as function parameters (vp, hp).
  - FastAPI dependency resolution: get_api_key runs as a dependency of
    get_current_user_dual, so an HTTPException it raises aborts the request
    before the resolver body runs; this is modelled by the Except layer of
    get_current_user_dual. The try/except HTTPException around
    jwt_get_current_user is modelled by bearer_attempt, which maps a bearer
    failure to none.
  - UserRole is a str-enum in the source; role is modelled as the underlying
    string value, which also lets unrecognized role values be expressed.
-/

/-- HTTP error raised by the source via fastapi HTTPException. -/
structure HTTPException where
  status_code : Nat
  detail : String
  headers : List (String × String)
deriving DecidableEq, Repr

/-- Role values of the str-enum UserRole in models.py. -/
def UserRole.ADMIN : String := "admin"

/-- Role value for clients. -/
def UserRole.CLIENT : String := "client"

/-- User row of models.py. -/
structure User where
  id : Nat
  username : String
  email : String
  full_name : Option String
  hashed_password : String
  role : String
  is_active : Bool
deriving DecidableEq, Repr

/-- The persisted account store: rows plus the autoincrement counter. -/
structure Db where
  users : List User
  nextId : Nat
deriving DecidableEq, Repr

/-- Auth-relevant fields of Settings in config.py. -/
structure Config where
  JWT_SECRET_KEY : String
  JWT_ALGORITHM : String
  JWT_EXPIRATION_MINUTES : Int
  API_KEY : String
deriving DecidableEq, Repr

/-- Decoded JWT claim set: the claims the source reads or writes. -/
structure Claims where
  sub : Option String
  roleClaim : Option String
  exp : Option Int
deriving DecidableEq, Repr

/-- A JWT: its claims plus the key and algorithm it was signed with. -/
structure Token where
  claims : Claims
  key : String
  alg : String
deriving DecidableEq, Repr

/-- Failure kinds of jose jwt.decode that the source catches as JWTError. -/
inductive JWTError where
  | invalidSignature
  | expiredSignature
deriving DecidableEq, Repr

/-- jose jwt.decode(token, key, algorithms=algs) at time now, with default
options: verify signature and algorithm; validate exp only when present
(require_exp is false by default); a present exp fails iff exp < now. -/
def jwt_decode (tok : Token) (key : String) (algs : List String) (now : Int) :
    Except JWTError Claims :=
  if tok.key = key ∧ tok.alg ∈ algs then
    match tok.claims.exp with
    | none => .ok tok.claims
    | some e => if e < now then .error .expiredSignature else .ok tok.claims
  else .error .invalidSignature

/-- jwt_auth.create_access_token: copy the data claims and set exp to
now + expires_delta (or now + ACCESS_TOKEN_EXPIRE_MINUTES when absent),
then sign with SECRET_KEY and ALGORITHM. Durations are in minutes. -/
def create_access_token (cfg : Config) (data : Claims) (now : Int)
    (expires_delta : Option Int) : Token :=
  let expire : Int :=
    match expires_delta with
    | some d => now + d
    | none => now + cfg.JWT_EXPIRATION_MINUTES
  { claims := { data with exp := some expire },
    key := cfg.JWT_SECRET_KEY, alg := cfg.JWT_ALGORITHM }

/-- jwt_auth.get_user_by_username: db.query(User).filter(username).first(). -/
def get_user_by_username (db : Db) (username : String) : Option User :=
  db.users.find? (fun u => u.username == username)

/-- jwt_auth.get_user_by_email: db.query(User).filter(email).first(). -/
def get_user_by_email (db : Db) (email : String) : Option User :=
  db.users.find? (fun u => u.email == email)

/-- The credentials_exception of jwt_auth.get_current_user. -/
def credentials_exception : HTTPException :=
  { status_code := 401, detail := "Could not validate credentials",
    headers := [("WWW-Authenticate", "Bearer")] }

/-- jwt_auth.get_current_user: decode the token (any JWTError maps to
credentials_exception), require a sub claim, look the subject up in the
account store. The active flag is not consulted here. -/
def get_current_user (cfg : Config) (credentials : Token) (db : Db) (now : Int) :
    Except HTTPException User :=
  match jwt_decode credentials cfg.JWT_SECRET_KEY [cfg.JWT_ALGORITHM] now with
  | .error _ => .error credentials_exception
  | .ok payload =>
    match payload.sub with
    | none => .error credentials_exception
    | some username =>
      match get_user_by_username db username with
      | none => .error credentials_exception
      | some user => .ok user

/-- The HTTPException raised by auth.get_api_key on a mismatched key. -/
def invalid_api_key_exception : HTTPException :=
  { status_code := 401, detail := "Invalid API Key",
    headers := [("WWW-Authenticate", "ApiKey")] }

/-- auth.get_api_key: absent header yields none; a matching key is returned;
a present mismatched key raises HTTPException 401 Invalid API Key. -/
def get_api_key (cfg : Config) (api_key : Option String) :
    Except HTTPException (Option String) :=
  match api_key with
  | none => .ok none
  | some k =>
    if k = cfg.API_KEY then .ok (some k)
    else .error invalid_api_key_exception

/-- The virtual admin User built by get_current_user_dual for API-key auth. -/
def virtual_admin : User :=
  { id := 0, username := "api_key_user", email := "api@system.com",
    full_name := some "API Key User", hashed_password := "",
    role := UserRole.ADMIN, is_active := true }

/-- The bearer branch of get_current_user_dual: if bearer credentials are
present, try jwt get_current_user; except HTTPException, pass (none). -/
def bearer_attempt (cfg : Config) (bearer_credentials : Option Token) (db : Db)
    (now : Int) : Option User :=
  match bearer_credentials with
  | some cred =>
    match get_current_user cfg cred db now with
    | .ok user => some user
    | .error _ => none
  | none => none

/-- The API-key branch of get_current_user_dual: if api_key (already validated
by get_api_key) is present, return the virtual admin, else None. -/
def api_key_fallback (api_key : Option String) : Option User :=
  match api_key with
  | some _ => some virtual_admin
  | none => none

/-- auth_dependencies.get_current_user_dual, together with its get_api_key
dependency: FastAPI resolves get_api_key first, so its HTTPException aborts
the request; otherwise try JWT, swallowing its HTTPException, then fall back
to the API key, else resolve to None. -/
def get_current_user_dual (cfg : Config) (bearer_credentials : Option Token)
    (api_key_header : Option String) (db : Db) (now : Int) :
    Except HTTPException (Option User) :=
  match get_api_key cfg api_key_header with
  | .error e => .error e
  | .ok api_key =>
    match bearer_attempt cfg bearer_credentials db now with
    | some user => .ok (some user)
    | none => .ok (api_key_fallback api_key)

/-- The HTTPException raised by require_authentication when no identity. -/
def authentication_required_exception : HTTPException :=
  { status_code := 401,
    detail := "Authentication required. Provide either JWT token (Authorization: Bearer) or API Key (X-API-Key)",
    headers := [("WWW-Authenticate", "Bearer")] }

/-- The body of auth_dependencies.require_authentication, given the resolved
optional user: None raises 401, otherwise the user passes through. -/
def require_authentication_gate (user : Option User) : Except HTTPException User :=
  match user with
  | none => .error authentication_required_exception
  | some u => .ok u

/-- auth_dependencies.require_authentication composed with its
get_current_user_dual dependency. -/
def require_authentication (cfg : Config) (bearer_credentials : Option Token)
    (api_key_header : Option String) (db : Db) (now : Int) :
    Except HTTPException User :=
  match get_current_user_dual cfg bearer_credentials api_key_header db now with
  | .error e => .error e
  | .ok user => require_authentication_gate user

/-- The HTTPException raised by require_admin on a non-admin role. -/
def admin_required_exception : HTTPException :=
  { status_code := 403, detail := "Admin privileges required", headers := [] }

/-- The body of auth_dependencies.require_admin, given an authenticated user:
role different from admin raises 403, otherwise the user passes through. -/
def require_admin_gate (user : User) : Except HTTPException User :=
  if user.role ≠ UserRole.ADMIN then .error admin_required_exception
  else .ok user

/-- auth_dependencies.require_admin composed with its require_authentication
dependency. -/
def require_admin (cfg : Config) (bearer_credentials : Option Token)
    (api_key_header : Option String) (db : Db) (now : Int) :
    Except HTTPException User :=
  match require_authentication cfg bearer_credentials api_key_header db now with
  | .error e => .error e
  | .ok user => require_admin_gate user

/-- jwt_auth.authenticate_user, with bcrypt checkpw abstracted as vp:
unknown username, failed password check, and inactive account each return
None; otherwise the user. -/
def authenticate_user (vp : String → String → Bool) (db : Db)
    (username password : String) : Option User :=
  match get_user_by_username db username with
  | none => none
  | some user =>
    if !(vp password user.hashed_password) then none
    else if !user.is_active then none
    else some user

/-- The HTTPException raised by the login route when authenticate_user fails,
identical for every failure cause. -/
def login_failure_exception : HTTPException :=
  { status_code := 401, detail := "Incorrect username or password",
    headers := [("WWW-Authenticate", "Bearer")] }

/-- routers/auth_router.login: authenticate, then issue a token carrying
sub and role with the configured lifetime. -/
def login (cfg : Config) (vp : String → String → Bool) (db : Db)
    (username password : String) (now : Int) :
    Except HTTPException (Token × User) :=
  match authenticate_user vp db username password with
  | none => .error login_failure_exception
  | some user =>
    .ok (create_access_token cfg
          { sub := some user.username, roleClaim := some user.role, exp := none }
          now (some cfg.JWT_EXPIRATION_MINUTES), user)

/-- jwt_auth.create_user, with bcrypt hashing abstracted as hp: insert a new
active row with the hashed password and the next autoincrement id. -/
def create_user (hp : String → String) (db : Db) (username email password : String)
    (full_name : Option String) (role : String) : User × Db :=
  let db_user : User :=
    { id := db.nextId, username := username, email := email,
      full_name := full_name, hashed_password := hp password,
      role := role, is_active := true }
  (db_user, { users := db.users ++ [db_user], nextId := db.nextId + 1 })

/-- Registration payload (schemas.UserCreate). -/
structure UserCreate where
  username : String
  email : String
  full_name : Option String
  password : String
  role : String
deriving DecidableEq, Repr

/-- The HTTPException for a duplicate username at registration. -/
def username_taken_exception : HTTPException :=
  { status_code := 400, detail := "Username already registered", headers := [] }

/-- The HTTPException for a duplicate email at registration. -/
def email_taken_exception : HTTPException :=
  { status_code := 400, detail := "Email already registered", headers := [] }

/-- The HTTPException for self-registration as admin when accounts exist. -/
def admin_self_register_exception : HTTPException :=
  { status_code := 403,
    detail := "Cannot self-register as admin. Please contact an existing admin.",
    headers := [] }

/-- routers/auth_router.register: reject duplicate username, then duplicate
email; reject role admin unless the store is empty; otherwise create the user
and issue a token. Returns the response and the updated store. -/
def register (cfg : Config) (hp : String → String) (db : Db)
    (user_data : UserCreate) (now : Int) :
    Except HTTPException (Token × User) × Db :=
  if (get_user_by_username db user_data.username).isSome then
    (.error username_taken_exception, db)
  else if (get_user_by_email db user_data.email).isSome then
    (.error email_taken_exception, db)
  else
    let user_count := db.users.length
    if user_count > 0 ∧ user_data.role = "admin" then
      (.error admin_self_register_exception, db)
    else
      let created := create_user hp db user_data.username user_data.email
        user_data.password user_data.full_name user_data.role
      let tok := create_access_token cfg
        { sub := some created.1.username, roleClaim := some created.1.role, exp := none }
        now (some cfg.JWT_EXPIRATION_MINUTES)
      (.ok (tok, created.1), created.2)

/-- The single store operation of get_current_user as a state transformer:
a lookup reads the store and returns it unchanged. -/
def db_query_username (db : Db) (username : String) : Option User × Db :=
  (db.users.find? (fun u => u.username == username), db)

/-- jwt_auth.get_current_user with the account store threaded explicitly, to
make the absence of mutation provable: every branch returns the store produced
by the operations it performed. -/
def get_current_user_st (cfg : Config) (credentials : Token) (db : Db) (now : Int) :
    Except HTTPException User × Db :=
  match jwt_decode credentials cfg.JWT_SECRET_KEY [cfg.JWT_ALGORITHM] now with
  | .error _ => (.error credentials_exception, db)
  | .ok payload =>
    match payload.sub with
    | none => (.error credentials_exception, db)
    | some username =>
      let q := db_query_username db username
      match q.1 with
      | none => (.error credentials_exception, q.2)
      | some user => (.ok user, q.2)

deriving instance DecidableEq for Except

/-! Concrete fixtures used to instantiate the theorems below. -/

/-- A concrete configuration. -/
def cfgW : Config :=
  { JWT_SECRET_KEY := "sekrit", JWT_ALGORITHM := "HS256",
    JWT_EXPIRATION_MINUTES := 1440, API_KEY := "your-secret-api-key-12345" }

/-- A persisted active client account. -/
def aliceW : User :=
  { id := 1, username := "alice", email := "alice@example.com", full_name := none,
    hashed_password := "pw1", role := "client", is_active := true }

/-- A persisted admin account that has been deactivated. -/
def carolW : User :=
  { id := 2, username := "carol", email := "carol@example.com", full_name := none,
    hashed_password := "pw2", role := "admin", is_active := false }

/-- A concrete store holding the two accounts. -/
def dbW : Db := { users := [aliceW, carolW], nextId := 3 }

/-- A valid token for alice, signed with the configured key. -/
def tokW : Token :=
  { claims := { sub := some "alice", roleClaim := some "client", exp := some 100 },
    key := "sekrit", alg := "HS256" }

/-- A valid token for carol, signed with the configured key. -/
def tokCW : Token :=
  { claims := { sub := some "carol", roleClaim := some "admin", exp := some 100 },
    key := "sekrit", alg := "HS256" }

/-- A token signed with the wrong key: bearer verification fails on it. -/
def badTokW : Token :=
  { claims := { sub := some "alice", roleClaim := some "client", exp := some 100 },
    key := "forged", alg := "HS256" }

/-- A correctly signed token for alice that carries no exp claim. -/
def tokNoExpW : Token :=
  { claims := { sub := some "alice", roleClaim := some "client", exp := none },
    key := "sekrit", alg := "HS256" }

/-- Claim C1: when a request carries both a bearer token that verifies to an
account of role client and a valid API key, get_current_user_dual resolves the
bearer account with its true role, and the result is the same as if no API key
had been sent at all, so the API key does not influence the resolution. -/
theorem dual_bearer_precedence_valid_both (cfg : Config) (db : Db) (now : Int)
    (tok : Token) (u : User)
    (hb : get_current_user cfg tok db now = .ok u)
    (hrole : u.role = UserRole.CLIENT) :
    get_current_user_dual cfg (some tok) (some cfg.API_KEY) db now = .ok (some u) ∧
    get_current_user_dual cfg (some tok) (some cfg.API_KEY) db now =
      get_current_user_dual cfg (some tok) none db now := by
  constructor
  · unfold get_current_user_dual get_api_key bearer_attempt
    simp [hb]
  · unfold get_current_user_dual get_api_key bearer_attempt
    simp [hb]

/-- Witness for C1 at a concrete request. -/
theorem dual_bearer_precedence_valid_both_w :
    get_current_user_dual cfgW (some tokW) (some cfgW.API_KEY) dbW 50 = .ok (some aliceW) ∧
    get_current_user_dual cfgW (some tokW) (some cfgW.API_KEY) dbW 50 =
      get_current_user_dual cfgW (some tokW) none dbW 50 :=
  dual_bearer_precedence_valid_both cfgW dbW 50 tokW aliceW (by decide) (by decide)

/-- Claim C2: when bearer verification fails with any HTTPException and the
API key is the configured one, get_current_user_dual resolves the synthetic
admin identity: id 0, role admin, active, and not among the persisted rows
(whose ids are positive); the failed bearer attempt does not abort the request. -/
theorem dual_api_key_fallback_on_bearer_failure (cfg : Config) (db : Db)
    (now : Int) (tok : Token) (e : HTTPException)
    (hb : get_current_user cfg tok db now = .error e)
    (hids : ∀ u ∈ db.users, 1 ≤ u.id) :
    get_current_user_dual cfg (some tok) (some cfg.API_KEY) db now = .ok (some virtual_admin) ∧
    virtual_admin.id = 0 ∧ virtual_admin.role = UserRole.ADMIN ∧
    virtual_admin.is_active = true ∧ virtual_admin ∉ db.users := by
  refine ⟨?_, by decide, by decide, by decide, ?_⟩
  · unfold get_current_user_dual get_api_key bearer_attempt api_key_fallback
    simp [hb]
  · intro hmem
    have h1 := hids virtual_admin hmem
    simp [virtual_admin] at h1

/-- Witness for C2 at a concrete request with a forged token. -/
theorem dual_api_key_fallback_on_bearer_failure_w :
    get_current_user_dual cfgW (some badTokW) (some cfgW.API_KEY) dbW 50 = .ok (some virtual_admin) ∧
    virtual_admin.id = 0 ∧ virtual_admin.role = UserRole.ADMIN ∧
    virtual_admin.is_active = true ∧ virtual_admin ∉ dbW.users :=
  dual_api_key_fallback_on_bearer_failure cfgW dbW 50 badTokW
    credentials_exception (by decide) (by decide)

/-- Claim C3 counterexample: a request carrying a bearer token that verifies
to alice together with a mismatched API key is not resolved to the bearer
identity; the Invalid API Key failure from get_api_key is surfaced as the
result of the resolution, contradicting the claim that such failures are
recovered locally. -/
theorem invalid_api_key_not_recovered_cex :
    get_current_user cfgW tokW dbW 50 = .ok aliceW ∧
    ("wrong-key" = cfgW.API_KEY → False) ∧
    get_current_user_dual cfgW (some tokW) (some "wrong-key") dbW 50 =
      .error invalid_api_key_exception ∧
    get_current_user_dual cfgW (some tokW) (some "wrong-key") dbW 50 ≠
      .ok (some aliceW) := by decide

/-- Claim C3 amended: a present API-key header that does not match the
configured key makes get_api_key raise 401 Invalid API Key, which aborts the
dual resolution regardless of the bearer credential, even a valid one; only an
absent API-key header is treated as no identity. -/
theorem invalid_api_key_aborts_request (cfg : Config) (bearer : Option Token)
    (db : Db) (now : Int) (k : String) (hk : k ≠ cfg.API_KEY) :
    get_current_user_dual cfg bearer (some k) db now = .error invalid_api_key_exception := by
  unfold get_current_user_dual get_api_key
  simp [hk]

/-- Witness for amended C3 at a concrete request. -/
theorem invalid_api_key_aborts_request_w :
    get_current_user_dual cfgW (some tokW) (some "wrong-key") dbW 50 =
      .error invalid_api_key_exception :=
  invalid_api_key_aborts_request cfgW (some tokW) dbW 50 "wrong-key" (by decide)

/-- Claim C4: when the bearer attempt yields no identity (no bearer or a
failed bearer) and no API key is sent, the resolver returns none without
error, and require_authentication fails with the 401 authentication-required
failure; any non-empty resolved identity passes the gate unchanged. -/
theorem unauthenticated_when_no_identity (cfg : Config) (bearer : Option Token)
    (db : Db) (now : Int)
    (hb : bearer_attempt cfg bearer db now = none) :
    get_current_user_dual cfg bearer none db now = .ok none ∧
    require_authentication cfg bearer none db now = .error authentication_required_exception ∧
    ∀ u : User, require_authentication_gate (some u) = .ok u := by
  have h1 : get_current_user_dual cfg bearer none db now = .ok none := by
    unfold get_current_user_dual get_api_key api_key_fallback
    simp [hb]
  refine ⟨h1, ?_, fun u => rfl⟩
  unfold require_authentication
  rw [h1]
  rfl

/-- Witness for C4 at a concrete request with a forged token and no API key. -/
theorem unauthenticated_when_no_identity_w :
    get_current_user_dual cfgW (some badTokW) none dbW 50 = .ok none ∧
    require_authentication cfgW (some badTokW) none dbW 50 =
      .error authentication_required_exception ∧
    require_authentication_gate (some aliceW) = .ok aliceW := by
  have h := unauthenticated_when_no_identity cfgW (some badTokW) dbW 50 (by decide)
  exact ⟨h.1, h.2.1, h.2.2 aliceW⟩

/-- Claim C5: require_admin passes an authenticated identity through unchanged
exactly when its role is the admin value, and fails with the 403 Forbidden
failure for every other role value, so an unrecognized role is an
authorization failure, never a default. -/
theorem require_admin_gate_role_check (u : User) :
    (require_admin_gate u = .ok u ↔ u.role = UserRole.ADMIN) ∧
    (u.role ≠ UserRole.ADMIN → require_admin_gate u = .error admin_required_exception) ∧
    (u.role = UserRole.ADMIN → require_admin_gate u = .ok u) := by
  unfold require_admin_gate
  by_cases h : u.role = UserRole.ADMIN <;> simp [h]

/-- Witness for C5 at an admin and at a client identity. -/
theorem require_admin_gate_role_check_w :
    require_admin_gate carolW = .ok carolW ∧
    require_admin_gate aliceW = .error admin_required_exception :=
  ⟨(require_admin_gate_role_check carolW).2.2 (by decide),
   (require_admin_gate_role_check aliceW).2.1 (by decide)⟩

/-- Claim C6: every failed login attempt, whether the username does not
exist, the password fails the hash check, or the credentials match but the
account is inactive, produces the identical generic failure, same status and
same message, so the three causes are indistinguishable from the response. -/
theorem login_failures_indistinguishable (cfg : Config) (vp : String → String → Bool)
    (db : Db) (now : Int) (u1 p1 u2 p2 u3 p3 : String) (w2 w3 : User)
    (h1 : get_user_by_username db u1 = none)
    (h2a : get_user_by_username db u2 = some w2)
    (h2b : vp p2 w2.hashed_password = false)
    (h3a : get_user_by_username db u3 = some w3)
    (h3b : vp p3 w3.hashed_password = true)
    (h3c : w3.is_active = false) :
    login cfg vp db u1 p1 now = .error login_failure_exception ∧
    login cfg vp db u2 p2 now = .error login_failure_exception ∧
    login cfg vp db u3 p3 now = .error login_failure_exception := by
  unfold login authenticate_user
  refine ⟨?_, ?_, ?_⟩ <;> simp [h1, h2a, h2b, h3a, h3b, h3c]

/-- Witness for C6: unknown user dave, wrong password for alice, correct
password for the deactivated carol, all three yielding the same failure. -/
theorem login_failures_indistinguishable_w :
    login cfgW (fun p h => p == h) dbW "dave" "x" 0 = .error login_failure_exception ∧
    login cfgW (fun p h => p == h) dbW "alice" "zzz" 0 = .error login_failure_exception ∧
    login cfgW (fun p h => p == h) dbW "carol" "pw2" 0 = .error login_failure_exception :=
  login_failures_indistinguishable cfgW (fun p h => p == h) dbW 0
    "dave" "x" "alice" "zzz" "carol" "pw2" aliceW carolW
    (by decide) (by decide) (by decide) (by decide) (by decide) (by decide)

/-- Claim C7: registration policy. On an empty store, a request with role
admin succeeds and creates an admin account; once any account exists, an
otherwise-fresh request with role admin fails with the 403 Forbidden failure;
a taken username fails with the username-specific failure; a fresh username
with a taken email fails with the email-specific failure. -/
theorem register_policy :
    (∀ (cfg : Config) (hp : String → String) (db : Db) (ud : UserCreate) (now : Int),
        db.users = [] → ud.role = "admin" →
        (register cfg hp db ud now).1 =
          .ok (create_access_token cfg
                { sub := some ud.username, roleClaim := some ud.role, exp := none }
                now (some cfg.JWT_EXPIRATION_MINUTES),
               (create_user hp db ud.username ud.email ud.password ud.full_name ud.role).1) ∧
        (create_user hp db ud.username ud.email ud.password ud.full_name ud.role).1.role =
          UserRole.ADMIN) ∧
    (∀ (cfg : Config) (hp : String → String) (db : Db) (ud : UserCreate) (now : Int),
        db.users ≠ [] → ud.role = "admin" →
        get_user_by_username db ud.username = none →
        get_user_by_email db ud.email = none →
        (register cfg hp db ud now).1 = .error admin_self_register_exception) ∧
    (∀ (cfg : Config) (hp : String → String) (db : Db) (ud : UserCreate) (now : Int) (w : User),
        get_user_by_username db ud.username = some w →
        (register cfg hp db ud now).1 = .error username_taken_exception) ∧
    (∀ (cfg : Config) (hp : String → String) (db : Db) (ud : UserCreate) (now : Int) (w : User),
        get_user_by_username db ud.username = none →
        get_user_by_email db ud.email = some w →
        (register cfg hp db ud now).1 = .error email_taken_exception) := by
  refine ⟨?_, ?_, ?_, ?_⟩
  · intro cfg hp db ud now hdb hrole
    constructor
    · unfold register
      simp [get_user_by_username, get_user_by_email, create_user, hdb]
    · simp [create_user, UserRole.ADMIN]
      exact hrole
  · intro cfg hp db ud now hne hrole hu he
    have hl : 0 < db.users.length := List.length_pos.mpr hne
    unfold register
    simp [hu, he, hl, hrole]
  · intro cfg hp db ud now w hu
    unfold register
    simp [hu]
  · intro cfg hp db ud now w hu he
    unfold register
    simp [hu, he]

/-- Registration payload requesting the admin role (bootstrap case). -/
def udAdminW : UserCreate :=
  { username := "root", email := "root@example.com", full_name := none,
    password := "pw0", role := "admin" }

/-- An empty account store. -/
def emptyDbW : Db := { users := [], nextId := 1 }

/-- Registration payload reusing the username of alice. -/
def udDupUserW : UserCreate :=
  { username := "alice", email := "new@example.com", full_name := none,
    password := "pw", role := "client" }

/-- Registration payload reusing the email of alice. -/
def udDupEmailW : UserCreate :=
  { username := "newname", email := "alice@example.com", full_name := none,
    password := "pw", role := "client" }

/-- Witness for C7: all four registration outcomes at concrete inputs. -/
theorem register_policy_w :
    (register cfgW (fun p => p) emptyDbW udAdminW 0).1 =
      .ok (create_access_token cfgW
            { sub := some udAdminW.username, roleClaim := some udAdminW.role, exp := none }
            0 (some cfgW.JWT_EXPIRATION_MINUTES),
           (create_user (fun p => p) emptyDbW udAdminW.username udAdminW.email
             udAdminW.password udAdminW.full_name udAdminW.role).1) ∧
    (register cfgW (fun p => p) dbW udAdminW 0).1 = .error admin_self_register_exception ∧
    (register cfgW (fun p => p) dbW udDupUserW 0).1 = .error username_taken_exception ∧
    (register cfgW (fun p => p) dbW udDupEmailW 0).1 = .error email_taken_exception :=
  ⟨(register_policy.1 cfgW (fun p => p) emptyDbW udAdminW 0 (by decide) (by decide)).1,
   register_policy.2.1 cfgW (fun p => p) dbW udAdminW 0 (by decide) (by decide)
     (by decide) (by decide),
   register_policy.2.2.1 cfgW (fun p => p) dbW udDupUserW 0 aliceW (by decide),
   register_policy.2.2.2 cfgW (fun p => p) dbW udDupEmailW 0 aliceW (by decide) (by decide)⟩

/-- Claim C8 counterexample: a token correctly signed with the configured key
but carrying no exp claim is accepted by bearer verification (default jose
decode options do not require exp), contradicting the claim that a token
lacking an expiry claim is rejected. -/
theorem missing_exp_accepted_cex :
    tokNoExpW.claims.exp = none ∧
    tokNoExpW.key = cfgW.JWT_SECRET_KEY ∧
    tokNoExpW.alg = cfgW.JWT_ALGORITHM ∧
    get_current_user cfgW tokNoExpW dbW 1000000 = .ok aliceW := by decide

/-- Claim C8 amended: a token issued with lifetime T fails bearer verification
at any time strictly after issue time plus T, but the expiry claim is only
checked when present: a correctly signed token without an exp claim whose
subject resolves is accepted. -/
theorem token_expiry_checked_when_present :
    (∀ (cfg : Config) (data : Claims) (db : Db) (issue T check : Int),
        issue + T < check →
        get_current_user cfg (create_access_token cfg data issue (some T)) db check =
          .error credentials_exception) ∧
    (∀ (cfg : Config) (s : String) (r : Option String) (db : Db) (now : Int) (u : User),
        get_user_by_username db s = some u →
        get_current_user cfg
          { claims := { sub := some s, roleClaim := r, exp := none },
            key := cfg.JWT_SECRET_KEY, alg := cfg.JWT_ALGORITHM } db now = .ok u) := by
  constructor
  · intro cfg data db issue T check h
    unfold get_current_user create_access_token jwt_decode
    simp [h]
  · intro cfg s r db now u hu
    unfold get_current_user jwt_decode
    simp [hu]

/-- Witness for amended C8: a token with lifetime 10 issued at 0 is rejected
at time 11, and the exp-less token for alice is accepted. -/
theorem token_expiry_checked_when_present_w :
    get_current_user cfgW (create_access_token cfgW
      { sub := some "alice", roleClaim := some "client", exp := none } 0 (some 10)) dbW 11 =
      .error credentials_exception ∧
    get_current_user cfgW
      { claims := { sub := some "alice", roleClaim := some "client", exp := none },
        key := cfgW.JWT_SECRET_KEY, alg := cfgW.JWT_ALGORITHM } dbW 999 = .ok aliceW :=
  ⟨token_expiry_checked_when_present.1 cfgW
    { sub := some "alice", roleClaim := some "client", exp := none } dbW 0 10 11 (by decide),
   token_expiry_checked_when_present.2 cfgW "alice" (some "client") dbW 999 aliceW (by decide)⟩

/-- Claim C9: bearer verification threaded through the store is side-effect
free and idempotent: it returns the store unchanged, running it a second time
on the resulting store yields the identical outcome, and its result agrees
with the plain get_current_user. -/
theorem bearer_verification_idempotent (cfg : Config) (tok : Token) (db : Db) (now : Int) :
    (get_current_user_st cfg tok db now).2 = db ∧
    get_current_user_st cfg tok (get_current_user_st cfg tok db now).2 now =
      get_current_user_st cfg tok db now ∧
    (get_current_user_st cfg tok db now).1 = get_current_user cfg tok db now := by
  have h2 : (get_current_user_st cfg tok db now).2 = db := by
    unfold get_current_user_st db_query_username
    cases hd : jwt_decode tok cfg.JWT_SECRET_KEY [cfg.JWT_ALGORITHM] now with
    | error e => rfl
    | ok payload =>
      cases hs : payload.sub with
      | none => simp [hs]
      | some username =>
        cases hq : db.users.find? (fun u => u.username == username) with
        | none => simp [hs, hq]
        | some u => simp [hs, hq]
  refine ⟨h2, by rw [h2], ?_⟩
  unfold get_current_user_st get_current_user db_query_username get_user_by_username
  cases hd : jwt_decode tok cfg.JWT_SECRET_KEY [cfg.JWT_ALGORITHM] now with
  | error e => rfl
  | ok payload =>
    cases hs : payload.sub with
    | none => simp [hs]
    | some username =>
      cases hq : db.users.find? (fun u => u.username == username) with
      | none => simp [hs, hq]
      | some u => simp [hs, hq]

/-- Claim C10: the dual resolution and gating path never consults the active
flag: an inactive account holding a valid bearer token is resolved, passes
require_authentication, and passes require_admin when its role is admin. -/
theorem active_flag_not_consulted_dual_path (cfg : Config) (db : Db) (now : Int)
    (tok : Token) (u : User)
    (hb : get_current_user cfg tok db now = .ok u)
    (hin : u.is_active = false) :
    get_current_user_dual cfg (some tok) none db now = .ok (some u) ∧
    require_authentication cfg (some tok) none db now = .ok u ∧
    (u.role = UserRole.ADMIN → require_admin cfg (some tok) none db now = .ok u) := by
  have h1 : get_current_user_dual cfg (some tok) none db now = .ok (some u) := by
    unfold get_current_user_dual get_api_key bearer_attempt
    simp [hb]
  have h2 : require_authentication cfg (some tok) none db now = .ok u := by
    unfold require_authentication
    rw [h1]
    rfl
  refine ⟨h1, h2, ?_⟩
  intro hrole
  unfold require_admin
  rw [h2]
  unfold require_admin_gate
  simp [hrole]

/-- Witness for C10: the deactivated admin carol with a valid token passes
the whole admin-gated path. -/
theorem active_flag_not_consulted_dual_path_w :
    get_current_user_dual cfgW (some tokCW) none dbW 50 = .ok (some carolW) ∧
    require_authentication cfgW (some tokCW) none dbW 50 = .ok carolW ∧
    require_admin cfgW (some tokCW) none dbW 50 = .ok carolW := by
  have h := active_flag_not_consulted_dual_path cfgW dbW 50 tokCW carolW (by decide) (by decide)
  exact ⟨h.1, h.2.1, h.2.2 (by decide)⟩
